import Mathlib

/-!
Verification of the record-to-fieldlist assembly engine described by the
repository's specification (CoordinateResolver, Field, FieldList,
MetadataView).  The repository snapshot ships only the two documentation
notebooks exercising the engine; the engine code itself is not part of the
snapshot, so every operational definition below is modelled from the
specification text (see the individual doc comments).
-/

namespace Earthkit

/-- Modelled from the spec: an in-memory numeric N-D array (the engine's
numpy arrays).  `shape` is the dimension list and `data` the row-major
flat buffer; coordinates and values are rational numbers. -/
structure NDArray where
  shape : List Nat
  data : List Rat
deriving DecidableEq, Repr

/-- Total element count, derived from the shape as in numpy. -/
def NDArray.size (a : NDArray) : Nat := a.shape.prod

/-- Well-formedness: the flat buffer has exactly `shape.prod` entries. -/
def NDArray.wf (a : NDArray) : Prop := a.data.length = a.shape.prod

instance (a : NDArray) : Decidable a.wf := by
  unfold NDArray.wf; infer_instance

/-- Row-major offset of a multi-index into a shape. -/
def rowMajorIndex : List Nat → List Nat → Nat
  | _ :: ds, i :: is => i * ds.prod + rowMajorIndex ds is
  | _, _ => 0

/-- Element access at a multi-index (row-major layout, default 0). -/
def NDArray.get (a : NDArray) (idx : List Nat) : Rat :=
  a.data.getD (rowMajorIndex a.shape idx) 0

/-- All multi-indices of a shape, enumerated in row-major order. -/
def allIndices : List Nat → List (List Nat)
  | [] => [[]]
  | d :: ds => (List.range d).flatMap (fun i => (allIndices ds).map (fun is => i :: is))

/-- Row-major flattening obtained by walking the multi-indices, as
`grid_points` does over the lat/lon meshes. -/
def NDArray.flattenRowMajor (a : NDArray) : List Rat :=
  (allIndices a.shape).map (fun idx => a.get idx)

/-- Modelled from the spec: a metadata value is a scalar — a string or a
number (MetadataView values such as `param` and `level`). -/
inductive MetaValue where
  | str (s : String)
  | num (q : Rat)
deriving DecidableEq, Repr

/-- Association-list lookup of a metadata key. -/
def lookupMeta (k : String) : List (String × MetaValue) → Option MetaValue
  | [] => none
  | kv :: rest => if kv.1 = k then some kv.2 else lookupMeta k rest

/-- Modelled from the spec: an input record — geometry keys (`latitudes`,
`longitudes`, `distinctLatitudes`, `distinctLongitudes`), the `values`
array, and the remaining metadata entries. -/
structure Record where
  latitudes : Option NDArray := none
  longitudes : Option NDArray := none
  distinctLatitudes : Option NDArray := none
  distinctLongitudes : Option NDArray := none
  values : NDArray
  meta : List (String × MetaValue) := []
deriving DecidableEq

/-- Modelled from the spec: the geometry a CoordinateResolver computes —
the field shape, the two coordinate grids, and (when the record was in
distinct-coordinate mode) the distinct axis vectors used to build the
mesh, kept for derived keys such as `mars_grid`. -/
structure ResolvedGeometry where
  shape : List Nat
  latitude_grid : NDArray
  longitude_grid : NDArray
  distinct : Option (List Rat × List Rat) := none
deriving DecidableEq

/-- Latitude mesh of a distinct mesh: row `i` is `n` copies of `lat[i]`. -/
def meshLat (la : List Rat) (n : Nat) : NDArray :=
  { shape := [la.length, n], data := (la.map (fun a => List.replicate n a)).flatten }

/-- Longitude mesh of a distinct mesh: each of the `m` rows is `lon`. -/
def meshLon (m : Nat) (lo : List Rat) : NDArray :=
  { shape := [m, lo.length], data := (List.replicate m lo).flatten }

/-- Modelled from the spec (§4.1 input priority): the distinct axis
vectors of a record, when the record is in distinct-coordinate mode —
either the `distinctLatitudes`/`distinctLongitudes` keys, or plain 1-D
`latitudes`/`longitudes` that are not already one-per-point. -/
def distinctVectors (r : Record) : Option (List Rat × List Rat) :=
  match r.distinctLatitudes, r.distinctLongitudes with
  | some la, some lo => some (la.data, lo.data)
  | _, _ =>
    match r.latitudes, r.longitudes with
    | some la, some lo =>
      if la.shape.length = 1 ∧ lo.shape.length = 1 ∧
          ¬(la.size = r.values.size ∧ lo.size = r.values.size) then
        some (la.data, lo.data)
      else none
    | _, _ => none

/-- Distinct-coordinate mode resolution: outer-broadcast the axis
vectors into the `(m, n)` mesh after checking the values array can be
explained as `(m, n)` or `(m*n,)` and neither axis is empty. -/
def resolveDistinct (la lo : List Rat) (v : NDArray) : Option ResolvedGeometry :=
  if 0 < la.length ∧ 0 < lo.length ∧
      (v.shape = [la.length * lo.length] ∨ v.shape = [la.length, lo.length]) then
    some { shape := [la.length, lo.length],
           latitude_grid := meshLat la lo.length,
           longitude_grid := meshLon la.length lo,
           distinct := some (la, lo) }
  else none

/-- Full-coordinate mode resolution: the coordinate arrays already
enumerate every grid point; the shape of the higher-dimensional side
wins (values' shape being authoritative on an equal-dimensionality tie
above 1-D), with the other side reshaped row-major; element counts must
match and coordinates may not be empty. -/
def resolveFull (la lo v : NDArray) : Option ResolvedGeometry :=
  if la.shape = lo.shape ∧ la.size = v.size ∧ 0 < la.size then
    if la.shape.length < v.shape.length then
      some { shape := v.shape,
             latitude_grid := { shape := v.shape, data := la.data },
             longitude_grid := { shape := v.shape, data := lo.data },
             distinct := none }
    else if v.shape.length < la.shape.length ∨ la.shape = v.shape then
      some { shape := la.shape,
             latitude_grid := la,
             longitude_grid := lo,
             distinct := none }
    else if 1 < v.shape.length then
      some { shape := v.shape,
             latitude_grid := { shape := v.shape, data := la.data },
             longitude_grid := { shape := v.shape, data := lo.data },
             distinct := none }
    else none
  else none

/-- Modelled from the spec (§4.1 CoordinateResolver): resolve a record's
geometry.  `none` models a raised `GeometryError`.  Distinct mode is
chosen per the spec's input priority, full-coordinate mode otherwise. -/
def resolve (r : Record) : Option ResolvedGeometry :=
  match distinctVectors r with
  | some (la, lo) => resolveDistinct la lo r.values
  | none =>
    match r.latitudes, r.longitudes with
    | some la, some lo => resolveFull la lo r.values
    | _, _ => none

/-- Modelled from the spec: an immutable Field — one values array, its
resolved geometry and its metadata mapping. -/
structure Field where
  values : NDArray
  geom : ResolvedGeometry
  meta : List (String × MetaValue)
deriving DecidableEq

/-- The field's resolved grid shape. -/
def Field.shape (f : Field) : List Nat := f.geom.shape

/-- Modelled from the spec: `to_numpy()` — the values reshaped to the
resolved shape (row-major reshape keeps the flat buffer). -/
def Field.to_numpy (f : Field) : NDArray :=
  { shape := f.geom.shape, data := f.values.data }

/-- Result type of `to_latlon()`. -/
structure LatLon where
  lat : NDArray
  lon : NDArray
deriving DecidableEq

/-- Modelled from the spec: `to_latlon()` — the two coordinate grids,
shaped exactly as the field shape. -/
def Field.to_latlon (f : Field) : LatLon :=
  { lat := f.geom.latitude_grid, lon := f.geom.longitude_grid }

/-- Modelled from the spec: `grid_points()` — the pair of 1-D row-major
flat sequences of the latitude and longitude grids. -/
def Field.grid_points (f : Field) : List Rat × List Rat :=
  (f.geom.latitude_grid.data, f.geom.longitude_grid.data)

/-- Walking from `prev`, do all consecutive differences equal `d`? -/
def stepsOkFrom (d : Rat) (prev : Rat) : List Rat → Bool
  | [] => true
  | x :: rest => decide (x - prev = d) && stepsOkFrom d x rest

/-- The uniform spacing of a vector, when it has one (needs at least two
entries and all consecutive differences equal). -/
def uniformStep (l : List Rat) : Option Rat :=
  match l with
  | a :: b :: rest => if stepsOkFrom (b - a) a (b :: rest) then some (b - a) else none
  | _ => none

/-- The `[longitude_increment, latitude_increment]` pair of a distinct
mesh, when both axes are uniformly spaced. -/
def marsIncrements (la lo : List Rat) : Option (List Rat) :=
  match uniformStep la, uniformStep lo with
  | some dla, some dlo => some [abs dlo, abs dla]
  | _, _ => none

/-- Modelled from the spec (§4.4): derived composite key `mars_grid` —
`[longitude_increment, latitude_increment]` when the geometry is a
regular distinct mesh with uniform spacing, absent (`none`, not a hard
error) otherwise. -/
def Field.mars_grid (f : Field) : Option (List Rat) :=
  match f.geom.distinct with
  | some (la, lo) => marsIncrements la lo
  | none => none

/-- Modelled from the spec: an ordered, appendable collection of Fields. -/
structure SimpleFieldList where
  fields : List Field
deriving DecidableEq

/-- Does the field's metadata match every key=value filter exactly? -/
def matchesAll (filters : List (String × MetaValue)) (f : Field) : Bool :=
  filters.all (fun kv => decide (lookupMeta kv.1 f.meta = some kv.2))

/-- Modelled from the spec (§4.3): `sel(**filters)` — a new FieldList
with, in original relative order, every field whose metadata matches all
the filters; zero matches yield an empty list, never an error. -/
def SimpleFieldList.sel (fl : SimpleFieldList) (filters : List (String × MetaValue)) :
    SimpleFieldList :=
  { fields := fl.fields.filter (matchesAll filters) }

/-- Ascending order on metadata values: numbers by value, strings
lexicographically (numbers before strings across kinds). -/
def MetaValue.le : MetaValue → MetaValue → Bool
  | .num a, .num b => decide (a ≤ b)
  | .num _, .str _ => true
  | .str _, .num _ => false
  | .str a, .str b => decide (a ≤ b)

/-- Order on optional metadata values: absent values sort last. -/
def metaOptLE : Option MetaValue → Option MetaValue → Bool
  | some a, some b => a.le b
  | _, none => true
  | none, some _ => false

/-- Sort key comparison between two fields for a metadata key. -/
def fieldLE (k : String) (f g : Field) : Prop :=
  metaOptLE (lookupMeta k f.meta) (lookupMeta k g.meta) = true

instance (k : String) : DecidableRel (fieldLE k) := fun _ _ => by
  unfold fieldLE; infer_instance

/-- Modelled from the spec (§4.3): `order_by(key)` — a new FieldList
sorted by ascending value of the key with a stable sort; on a non-empty
list whose fields all lack the key it fails (`none`, the KeyError-class
error); absent values sort last otherwise. -/
def SimpleFieldList.order_by (fl : SimpleFieldList) (k : String) :
    Option SimpleFieldList :=
  if fl.fields ≠ [] ∧ fl.fields.all (fun f => (lookupMeta k f.meta).isNone) then none
  else some { fields := List.insertionSort (fieldLE k) fl.fields }

/-- Stack a list of fields: all shapes must equal the first field's. -/
def stackFields : List Field → Option NDArray
  | [] => some { shape := [0], data := [] }
  | f :: rest =>
    if rest.all (fun g => decide (g.geom.shape = f.geom.shape)) then
      some { shape := (f :: rest).length :: f.geom.shape,
             data := ((f :: rest).map (fun g => g.values.data)).flatten }
    else none

/-- Modelled from the spec (§4.3): stacked `to_numpy()` across the list —
leading axis the field count, trailing axes the common per-field shape;
`none` models the `ShapeMismatchError` raised when shapes differ. -/
def SimpleFieldList.to_numpy (fl : SimpleFieldList) : Option NDArray :=
  stackFields fl.fields

/-- Modelled from the spec: method-call semantics of `sel` — the receiver
after the call paired with the result (the spec's `sel` only reads the
receiver and appends matches to a fresh list). -/
def SimpleFieldList.selCall (fl : SimpleFieldList)
    (filters : List (String × MetaValue)) : SimpleFieldList × SimpleFieldList :=
  (fl, fl.sel filters)

/-- Modelled from the spec: method-call semantics of `order_by` — the
receiver after the call paired with the result. -/
def SimpleFieldList.orderByCall (fl : SimpleFieldList) (k : String) :
    SimpleFieldList × Option SimpleFieldList :=
  (fl, fl.order_by k)

/-- Naive date-time components of an ISO-8601 timestamp. -/
structure NaiveDT where
  year : Nat
  month : Nat
  day : Nat
  hour : Nat
  minute : Nat
  second : Nat
deriving DecidableEq, Repr

/-- A parsed timestamp: naive components plus an optional UTC offset in
minutes (`some 0` is UTC; `none` is timezone-naive). -/
structure DateTimeTZ where
  naive : NaiveDT
  offsetMinutes : Option Int
deriving DecidableEq, Repr

/-- Numeric value of a digit character. -/
def digitVal (c : Char) : Nat := c.toNat - 48

/-- Modelled from the spec: parse the naive `YYYY-MM-DDTHH:MM:SS` part of
an ISO-8601 string (as a character list). -/
def parseNaiveDT (cs : List Char) : Option NaiveDT :=
  match cs with
  | [y1, y2, y3, y4, '-', mo1, mo2, '-', d1, d2, 'T', h1, h2, ':', mi1, mi2, ':', s1, s2] =>
    if [y1, y2, y3, y4, mo1, mo2, d1, d2, h1, h2, mi1, mi2, s1, s2].all Char.isDigit then
      some { year := digitVal y1 * 1000 + digitVal y2 * 100 + digitVal y3 * 10 + digitVal y4,
             month := digitVal mo1 * 10 + digitVal mo2,
             day := digitVal d1 * 10 + digitVal d2,
             hour := digitVal h1 * 10 + digitVal h2,
             minute := digitVal mi1 * 10 + digitVal mi2,
             second := digitVal s1 * 10 + digitVal s2 }
    else none
  | _ => none

/-- Modelled from the spec (§4.4): parse an ISO-8601 `valid_datetime`
string; a trailing Z designator is normalized to the UTC offset
`+00:00` (offset 0 minutes), otherwise the value is timezone-naive. -/
def parseValidDatetime (cs : List Char) : Option DateTimeTZ :=
  if cs.getLast? = some 'Z' then
    (parseNaiveDT cs.dropLast).map (fun c => { naive := c, offsetMinutes := some 0 })
  else
    (parseNaiveDT cs).map (fun c => { naive := c, offsetMinutes := none })

/-- Two-digit zero-padded decimal rendering. -/
def pad2 (n : Nat) : List Char := [Nat.digitChar (n / 10 % 10), Nat.digitChar (n % 10)]

/-- Four-digit zero-padded decimal rendering. -/
def pad4 (n : Nat) : List Char :=
  [Nat.digitChar (n / 1000 % 10), Nat.digitChar (n / 100 % 10),
   Nat.digitChar (n / 10 % 10), Nat.digitChar (n % 10)]

/-- Render the naive components back to `YYYY-MM-DDTHH:MM:SS`. -/
def fmtNaiveDT (c : NaiveDT) : List Char :=
  pad4 c.year ++ '-' :: pad2 c.month ++ '-' :: pad2 c.day ++
    'T' :: pad2 c.hour ++ ':' :: pad2 c.minute ++ ':' :: pad2 c.second

/-- Render the UTC offset as an explicit `+HH:MM`/`-HH:MM` designator. -/
def fmtOffset : Option Int → List Char
  | none => []
  | some k =>
    (if k < 0 then '-' else '+') :: (pad2 (k.natAbs / 60) ++ ':' :: pad2 (k.natAbs % 60))

/-- Render a parsed timestamp the way `ls()` displays it. -/
def fmtDateTime (dt : DateTimeTZ) : List Char :=
  fmtNaiveDT dt.naive ++ fmtOffset dt.offsetMinutes

/-- Modelled from the spec (§4.4): `metadata().valid_datetime()` — parse
the field's `valid_datetime` metadata string. -/
def Field.valid_datetime (f : Field) : Option DateTimeTZ :=
  match lookupMeta "valid_datetime" f.meta with
  | some (MetaValue.str s) => parseValidDatetime s.data
  | _ => none

/-- Modelled from the spec: the `valid_datetime` cell `ls()` renders for a
field. -/
def lsValidDatetime (f : Field) : Option (List Char) :=
  (f.valid_datetime).map fmtDateTime

/-- The resolved geometry of the notebooks' distinct-mesh prototype:
distinct latitudes [10, 0, -10] and longitudes [20, 40]. -/
def demoGeom : ResolvedGeometry :=
  { shape := [3, 2],
    latitude_grid := { shape := [3, 2], data := [10, 10, 0, 0, -10, -10] },
    longitude_grid := { shape := [3, 2], data := [20, 40, 20, 40, 20, 40] },
    distinct := some ([10, 0, -10], [20, 40]) }

/-- One field of the notebooks' loop-built fieldlist. -/
def demoField (p : String) (lvl : Rat) : Field :=
  { values := { shape := [3, 2], data := [1, 2, 3, 4, 5, 6] },
    geom := demoGeom,
    meta := [("param", MetaValue.str p), ("level", MetaValue.num lvl),
             ("valid_datetime", MetaValue.str "2018-08-01T09:00:00Z")] }

/-- The six-field list of the fields-from-dict notebook
(params t, t, u, u, d, d; levels 500, 850, 500, 850, 850, 600). -/
def demoList : SimpleFieldList :=
  { fields := [demoField "t" 500, demoField "t" 850, demoField "u" 500,
               demoField "u" 850, demoField "d" 850, demoField "d" 600] }

/-- An unstructured five-point field (the notebooks' arbitrary-geometry
example), used to exercise shape heterogeneity. -/
def demoUnstructured : Field :=
  { values := { shape := [5], data := [1, 2, 3, 4, 5] },
    geom := { shape := [5],
              latitude_grid := { shape := [5], data := [10, 10, 6, 6, 6] },
              longitude_grid := { shape := [5], data := [20, 40, -40, 0, 40] },
              distinct := none },
    meta := [("param", MetaValue.str "t")] }

/-- A fieldlist whose members have differing shapes. -/
def demoMixed : SimpleFieldList :=
  { fields := [demoField "t" 500, demoUnstructured] }

/-- Row-major offset into an `(m, n)` grid. -/
theorem rowMajorIndex_pair (m n i j : Nat) : rowMajorIndex [m, n] [i, j] = i * n + j := by
  simp [rowMajorIndex]

/-- Entry `(i, j)` of the broadcast latitude buffer is `lat[i]`. -/
theorem flatten_map_replicate_getD (la : List Rat) (n i j : Nat)
    (hi : i < la.length) (hj : j < n) :
    ((la.map (fun a => List.replicate n a)).flatten).getD (i * n + j) 0 = la.getD i 0 := by
  induction la generalizing i with
  | nil => simp at hi
  | cons a rest ih =>
    cases i with
    | zero =>
      have hj' : j < (List.replicate n a).length := by simpa using hj
      rw [List.map_cons, List.flatten_cons, Nat.zero_mul, Nat.zero_add,
        List.getD_append _ _ _ _ hj', List.getD_eq_getElem _ _ hj',
        List.getElem_replicate, List.getD_cons_zero]
    | succ i' =>
      have hrep : (List.replicate n a).length = n := List.length_replicate n a
      rw [List.map_cons, List.flatten_cons, Nat.succ_mul,
        List.getD_append_right _ _ _ _ (by rw [hrep]; omega), hrep]
      have harith : i' * n + n + j - n = i' * n + j := by omega
      rw [harith, List.getD_cons_succ]
      exact ih i' (by simp at hi; omega)

/-- Entry `(i, j)` of the broadcast longitude buffer is `lon[j]`. -/
theorem flatten_replicate_getD (lo : List Rat) (m i j : Nat)
    (hi : i < m) (hj : j < lo.length) :
    ((List.replicate m lo).flatten).getD (i * lo.length + j) 0 = lo.getD j 0 := by
  induction m generalizing i with
  | zero => exact absurd hi (Nat.not_lt_zero i)
  | succ m' ih =>
    rw [List.replicate_succ, List.flatten_cons]
    cases i with
    | zero => rw [Nat.zero_mul, Nat.zero_add, List.getD_append _ _ _ _ hj]
    | succ i' =>
      rw [Nat.succ_mul, List.getD_append_right _ _ _ _ (by omega)]
      have harith : i' * lo.length + lo.length + j - lo.length = i' * lo.length + j := by
        omega
      rw [harith]
      exact ih i' (Nat.lt_of_succ_lt_succ hi)

/-- Reading a list back at indices `0, …, length-1` reproduces it. -/
theorem map_getD_range (l : List Rat) :
    (List.range l.length).map (fun i => l.getD i 0) = l := by
  induction l with
  | nil => simp
  | cons a rest ih =>
    have h : ((fun i => (a :: rest).getD i 0) ∘ Nat.succ) = fun i => rest.getD i 0 := by
      funext i
      simp [Function.comp, List.getD_cons_succ]
    rw [List.length_cons, List.range_succ_eq_map, List.map_cons, List.map_map, h, ih,
      List.getD_cons_zero]

/-- Blocked enumeration of `0, …, d*P-1`. -/
theorem flatMap_range_mul (d P : Nat) :
    (List.range d).flatMap (fun i => (List.range P).map (fun k => i * P + k))
      = List.range (d * P) := by
  induction d with
  | zero => simp
  | succ d ih =>
    rw [List.range_succ, List.flatMap_append, ih, Nat.succ_mul, List.range_add]
    simp

/-- Row-major multi-index enumeration yields exactly the flat offsets in
order. -/
theorem map_rowMajorIndex_allIndices (ds : List Nat) :
    (allIndices ds).map (rowMajorIndex ds) = List.range ds.prod := by
  induction ds with
  | nil =>
    rw [show List.prod ([] : List Nat) = 1 from rfl, List.range_succ]
    simp [allIndices, rowMajorIndex]
  | cons d ds ih =>
    rw [show allIndices (d :: ds)
          = (List.range d).flatMap (fun i => (allIndices ds).map (fun is => i :: is))
        from rfl,
      List.map_flatMap]
    have hstep : ∀ i : Nat,
        ((allIndices ds).map (fun is => i :: is)).map (rowMajorIndex (d :: ds))
          = (List.range ds.prod).map (fun k => i * ds.prod + k) := by
      intro i
      rw [List.map_map]
      have hcomp : (rowMajorIndex (d :: ds) ∘ fun is => i :: is)
          = fun is => i * ds.prod + rowMajorIndex ds is := by
        funext is
        simp [Function.comp, rowMajorIndex]
      rw [hcomp, ← ih, List.map_map]
      rfl
    simp only [hstep]
    rw [flatMap_range_mul, List.prod_cons]

/-- On a well-formed array the row-major index walk reproduces the flat
buffer. -/
theorem flattenRowMajor_eq_data (a : NDArray) (h : a.wf) :
    a.flattenRowMajor = a.data := by
  unfold NDArray.flattenRowMajor NDArray.get
  have h1 : (allIndices a.shape).map (fun idx => a.data.getD (rowMajorIndex a.shape idx) 0)
      = ((allIndices a.shape).map (rowMajorIndex a.shape)).map (fun k => a.data.getD k 0) := by
    rw [List.map_map]
    rfl
  rw [h1, map_rowMajorIndex_allIndices, ← h]
  exact map_getD_range a.data

/-- The metadata order is reflexive. -/
theorem metaOptLE_refl (v : Option MetaValue) : metaOptLE v v = true := by
  cases v with
  | none => rfl
  | some a => cases a <;> simp [metaOptLE, MetaValue.le]

/-- The metadata order is total. -/
theorem metaOptLE_total (a b : Option MetaValue) :
    metaOptLE a b = true ∨ metaOptLE b a = true := by
  cases a with
  | none => cases b <;> simp [metaOptLE]
  | some x =>
    cases b with
    | none => simp [metaOptLE]
    | some y =>
      simp only [metaOptLE]
      cases x <;> cases y <;> simp [MetaValue.le] <;> exact le_total _ _

/-- The metadata order is transitive. -/
theorem metaOptLE_trans (a b c : Option MetaValue)
    (hab : metaOptLE a b = true) (hbc : metaOptLE b c = true) :
    metaOptLE a c = true := by
  cases a with
  | none =>
    cases b with
    | none => exact hbc
    | some y =>
      cases c with
      | none => rfl
      | some z => simp [metaOptLE] at hab
  | some x =>
    cases b with
    | none =>
      cases c with
      | none => rfl
      | some z => simp [metaOptLE] at hbc
    | some y =>
      cases c with
      | none => rfl
      | some z =>
        simp only [metaOptLE] at hab hbc ⊢
        cases x <;> cases y <;> cases z <;>
          simp only [MetaValue.le, decide_eq_true_eq] at hab hbc ⊢ <;>
          first
          | rfl
          | exact le_trans hab hbc
          | exact hab
          | exact hbc
          | exact absurd hab (by decide)
          | exact absurd hbc (by decide)

/-- A record in distinct-coordinate mode resolves through the mesh
broadcast. -/
theorem resolve_eq_distinct (r : Record) (la lo : List Rat)
    (hdv : distinctVectors r = some (la, lo)) :
    resolve r = resolveDistinct la lo r.values := by
  unfold resolve
  rw [hdv]

/-- A record out of distinct-coordinate mode resolves through
full-coordinate mode. -/
theorem resolve_eq_full (r : Record) (la lo : NDArray)
    (hla : r.latitudes = some la) (hlo : r.longitudes = some lo)
    (hdv : distinctVectors r = none) :
    resolve r = resolveFull la lo r.values := by
  unfold resolve
  rw [hdv, hla, hlo]

/-- Claim C1: a distinct-coordinate record — given either as plain 1-D
latitudes/longitudes whose lengths differ from the flattened length of
the values, or via the distinctLatitudes/distinctLongitudes keys — with
latitude vector of length m and longitude vector of length n resolves to
shape (m, n) with latitude_grid[i][j] = lat[i] and
longitude_grid[i][j] = lon[j] (outer broadcast, row = latitude index),
and both encodings produce the same resolved field. -/
theorem c1_distinct_mode_broadcast (la lo : List Rat) (v : NDArray)
    (hm : 0 < la.length) (hn : 0 < lo.length)
    (hv : v.shape = [la.length * lo.length] ∨ v.shape = [la.length, lo.length])
    (hne : ¬(la.length = v.size ∧ lo.length = v.size)) :
    resolve { latitudes := some { shape := [la.length], data := la },
              longitudes := some { shape := [lo.length], data := lo },
              values := v }
      = resolve { distinctLatitudes := some { shape := [la.length], data := la },
                  distinctLongitudes := some { shape := [lo.length], data := lo },
                  values := v }
    ∧ resolve { distinctLatitudes := some { shape := [la.length], data := la },
                distinctLongitudes := some { shape := [lo.length], data := lo },
                values := v }
      = some { shape := [la.length, lo.length],
               latitude_grid := meshLat la lo.length,
               longitude_grid := meshLon la.length lo,
               distinct := some (la, lo) }
    ∧ ∀ i j, i < la.length → j < lo.length →
        (meshLat la lo.length).get [i, j] = la.getD i 0 ∧
        (meshLon la.length lo).get [i, j] = lo.getD j 0 := by
  have hdvP : distinctVectors
      { latitudes := some { shape := [la.length], data := la },
        longitudes := some { shape := [lo.length], data := lo }, values := v }
      = some (la, lo) := by
    have heq : distinctVectors
        { latitudes := some { shape := [la.length], data := la },
          longitudes := some { shape := [lo.length], data := lo }, values := v }
        = if ([la.length] : List Nat).length = 1 ∧ ([lo.length] : List Nat).length = 1 ∧
              ¬(NDArray.size { shape := [la.length], data := la } = v.size ∧
                NDArray.size { shape := [lo.length], data := lo } = v.size) then
            some (la, lo)
          else none := rfl
    rw [heq, if_pos]
    exact ⟨rfl, rfl, by simpa [NDArray.size] using hne⟩
  have hdvD : distinctVectors
      { distinctLatitudes := some { shape := [la.length], data := la },
        distinctLongitudes := some { shape := [lo.length], data := lo }, values := v }
      = some (la, lo) := rfl
  have hres : resolveDistinct la lo v
      = some { shape := [la.length, lo.length],
               latitude_grid := meshLat la lo.length,
               longitude_grid := meshLon la.length lo,
               distinct := some (la, lo) } := by
    unfold resolveDistinct
    rw [if_pos ⟨hm, hn, hv⟩]
  refine ⟨?_, ?_, ?_⟩
  · rw [resolve_eq_distinct _ la lo hdvP, resolve_eq_distinct _ la lo hdvD]
  · rw [resolve_eq_distinct _ la lo hdvD]
    exact hres
  · intro i j hi hj
    constructor
    · show ((la.map (fun a => List.replicate lo.length a)).flatten).getD
        (rowMajorIndex [la.length, lo.length] [i, j]) 0 = la.getD i 0
      rw [rowMajorIndex_pair]
      exact flatten_map_replicate_getD la lo.length i j hi hj
    · show ((List.replicate la.length lo).flatten).getD
        (rowMajorIndex [la.length, lo.length] [i, j]) 0 = lo.getD j 0
      rw [rowMajorIndex_pair]
      exact flatten_replicate_getD lo la.length i j hi hj

/-- Witness for C1 at the notebooks' concrete example: distinct
latitudes [10, 0, -10], longitudes [20, 40], values [1..6]. -/
theorem c1_witness :
    (resolve { latitudes := some { shape := [3], data := [10, 0, -10] },
               longitudes := some { shape := [2], data := [20, 40] },
               values := { shape := [6], data := [1, 2, 3, 4, 5, 6] } }
      = resolve { distinctLatitudes := some { shape := [3], data := [10, 0, -10] },
                  distinctLongitudes := some { shape := [2], data := [20, 40] },
                  values := { shape := [6], data := [1, 2, 3, 4, 5, 6] } })
    ∧ (resolve { distinctLatitudes := some { shape := [3], data := [10, 0, -10] },
                 distinctLongitudes := some { shape := [2], data := [20, 40] },
                 values := { shape := [6], data := [1, 2, 3, 4, 5, 6] } }
      = some { shape := [3, 2],
               latitude_grid := meshLat [10, 0, -10] 2,
               longitude_grid := meshLon 3 [20, 40],
               distinct := some ([10, 0, -10], [20, 40]) })
    ∧ ((meshLat [10, 0, -10] 2).get [2, 1] = ([10, 0, -10] : List Rat).getD 2 0 ∧
       (meshLon 3 [20, 40]).get [2, 1] = ([20, 40] : List Rat).getD 1 0) := by
  have h := c1_distinct_mode_broadcast [10, 0, -10] [20, 40]
    { shape := [6], data := [1, 2, 3, 4, 5, 6] }
    (by decide) (by decide) (by decide) (by decide)
  exact ⟨h.1, h.2.1, h.2.2 2 1 (by decide) (by decide)⟩

/-- Claim C2: in full-coordinate mode, with matching element counts the
resolved shape is the higher-dimensional side's shape — the coordinate
arrays' shape unless the values array has strictly higher dimensionality
(or ties above 1-D with a different shape), in which case the values'
shape wins and the coordinates are reshaped row-major (flat buffer kept);
with mismatching element counts resolution fails. -/
theorem c2_full_mode_shape (la lo v : NDArray) (hsh : la.shape = lo.shape) :
    (la.size = v.size → 0 < la.size → la.shape.length < v.shape.length →
      resolve { latitudes := some la, longitudes := some lo, values := v }
        = some { shape := v.shape,
                 latitude_grid := { shape := v.shape, data := la.data },
                 longitude_grid := { shape := v.shape, data := lo.data },
                 distinct := none })
    ∧ (la.size = v.size → 0 < la.size → v.shape.length < la.shape.length →
      resolve { latitudes := some la, longitudes := some lo, values := v }
        = some { shape := la.shape,
                 latitude_grid := la,
                 longitude_grid := lo,
                 distinct := none })
    ∧ (la.size = v.size → 0 < la.size → la.shape.length = v.shape.length →
        la.shape ≠ v.shape → 1 < v.shape.length →
      resolve { latitudes := some la, longitudes := some lo, values := v }
        = some { shape := v.shape,
                 latitude_grid := { shape := v.shape, data := la.data },
                 longitude_grid := { shape := v.shape, data := lo.data },
                 distinct := none })
    ∧ (distinctVectors { latitudes := some la, longitudes := some lo, values := v }
          = none → la.size ≠ v.size →
      resolve { latitudes := some la, longitudes := some lo, values := v } = none) := by
  have hlosz : lo.size = la.size := by
    rw [NDArray.size, NDArray.size, hsh]
  have hdv : la.size = v.size → distinctVectors
      { latitudes := some la, longitudes := some lo, values := v } = none := by
    intro hsz
    have heq : distinctVectors { latitudes := some la, longitudes := some lo, values := v }
        = if la.shape.length = 1 ∧ lo.shape.length = 1 ∧
              ¬(la.size = v.size ∧ lo.size = v.size) then
            some (la.data, lo.data)
          else none := rfl
    rw [heq, if_neg]
    rintro ⟨-, -, h⟩
    exact h ⟨hsz, hlosz.trans hsz⟩
  refine ⟨?_, ?_, ?_, ?_⟩
  · intro hsz hpos hlt
    rw [resolve_eq_full _ la lo rfl rfl (hdv hsz)]
    show resolveFull la lo v = _
    unfold resolveFull
    rw [if_pos ⟨hsh, hsz, hpos⟩, if_pos hlt]
  · intro hsz hpos hlt
    rw [resolve_eq_full _ la lo rfl rfl (hdv hsz)]
    show resolveFull la lo v = _
    unfold resolveFull
    rw [if_pos ⟨hsh, hsz, hpos⟩, if_neg (by omega), if_pos (Or.inl hlt)]
  · intro hsz hpos hlen hneq hgt
    rw [resolve_eq_full _ la lo rfl rfl (hdv hsz)]
    show resolveFull la lo v = _
    unfold resolveFull
    rw [if_pos ⟨hsh, hsz, hpos⟩, if_neg (by omega), if_neg, if_pos hgt]
    rintro (h | h)
    · omega
    · exact hneq h
  · intro hdv0 hsz
    rw [resolve_eq_full _ la lo rfl rfl hdv0]
    show resolveFull la lo v = _
    unfold resolveFull
    rw [if_neg]
    rintro ⟨-, h, -⟩
    exact hsz h

/-- Witness for C2: 2-D coordinates with 1-D values take the coordinate
shape (3, 2); 1-D coordinates with 2-D values take the values' shape;
mismatched element counts fail. -/
theorem c2_witness :
    (resolve { latitudes := some { shape := [3, 2], data := [10, 10, 0, 0, -10, -10] },
               longitudes := some { shape := [3, 2], data := [20, 40, 20, 40, 20, 40] },
               values := { shape := [6], data := [1, 2, 3, 4, 5, 6] } }
      = some { shape := [3, 2],
               latitude_grid := { shape := [3, 2], data := [10, 10, 0, 0, -10, -10] },
               longitude_grid := { shape := [3, 2], data := [20, 40, 20, 40, 20, 40] },
               distinct := none })
    ∧ (resolve { latitudes := some { shape := [6], data := [10, 10, 0, 0, -10, -10] },
                 longitudes := some { shape := [6], data := [20, 40, 20, 40, 20, 40] },
                 values := { shape := [3, 2], data := [1, 2, 3, 4, 5, 6] } }
      = some { shape := [3, 2],
               latitude_grid := { shape := [3, 2], data := [10, 10, 0, 0, -10, -10] },
               longitude_grid := { shape := [3, 2], data := [20, 40, 20, 40, 20, 40] },
               distinct := none })
    ∧ (resolve { latitudes := some { shape := [3, 2], data := [10, 10, 0, 0, -10, -10] },
                 longitudes := some { shape := [3, 2], data := [20, 40, 20, 40, 20, 40] },
                 values := { shape := [5], data := [1, 2, 3, 4, 5] } } = none) := by
  refine ⟨?_, ?_, ?_⟩
  · exact (c2_full_mode_shape
      { shape := [3, 2], data := [10, 10, 0, 0, -10, -10] }
      { shape := [3, 2], data := [20, 40, 20, 40, 20, 40] }
      { shape := [6], data := [1, 2, 3, 4, 5, 6] } rfl).2.1
      (by decide) (by decide) (by decide)
  · exact (c2_full_mode_shape
      { shape := [6], data := [10, 10, 0, 0, -10, -10] }
      { shape := [6], data := [20, 40, 20, 40, 20, 40] }
      { shape := [3, 2], data := [1, 2, 3, 4, 5, 6] } rfl).1
      (by decide) (by decide) (by decide)
  · exact (c2_full_mode_shape
      { shape := [3, 2], data := [10, 10, 0, 0, -10, -10] }
      { shape := [3, 2], data := [20, 40, 20, 40, 20, 40] }
      { shape := [5], data := [1, 2, 3, 4, 5] } rfl).2.2.2
      (by decide) (by decide)

/-- Claim C3: both coordinate arrays 1-D of the common length N equal to
the flattened length of the values, with no additional shape hint,
resolve in unstructured mode: shape (N,), coordinate arrays passed
through unchanged with no mesh broadcast, and no GeometryError — for
arbitrary, possibly non-monotonic and irregular coordinate data. -/
theorem c3_unstructured_passthrough (la lo v : NDArray) (N : Nat)
    (h1 : la.shape = [N]) (h2 : lo.shape = [N]) (h3 : v.shape = [N]) (hN : 0 < N) :
    resolve { latitudes := some la, longitudes := some lo, values := v }
      = some { shape := [N], latitude_grid := la, longitude_grid := lo,
               distinct := none } := by
  have hsz : la.size = v.size := by simp [NDArray.size, h1, h3]
  have hlosz : lo.size = v.size := by simp [NDArray.size, h2, h3]
  have hdv : distinctVectors { latitudes := some la, longitudes := some lo, values := v }
      = none := by
    have heq : distinctVectors { latitudes := some la, longitudes := some lo, values := v }
        = if la.shape.length = 1 ∧ lo.shape.length = 1 ∧
              ¬(la.size = v.size ∧ lo.size = v.size) then
            some (la.data, lo.data)
          else none := rfl
    rw [heq, if_neg]
    rintro ⟨-, -, h⟩
    exact h ⟨hsz, hlosz⟩
  rw [resolve_eq_full _ la lo rfl rfl hdv]
  unfold resolveFull
  rw [if_pos ⟨h1.trans h2.symm, hsz, by simpa [NDArray.size, h1] using hN⟩,
    if_neg (by simp [h1, h3]), if_pos (Or.inr (h1.trans h3.symm)), h1]

/-- Witness for C3 at the notebooks' unstructured example: latitudes
[10, 10, 6, 6, 6], longitudes [20, 40, -40, 0, 40], values [1..5]. -/
theorem c3_witness :
    resolve { latitudes := some { shape := [5], data := [10, 10, 6, 6, 6] },
              longitudes := some { shape := [5], data := [20, 40, -40, 0, 40] },
              values := { shape := [5], data := [1, 2, 3, 4, 5] } }
      = some { shape := [5],
               latitude_grid := { shape := [5], data := [10, 10, 6, 6, 6] },
               longitude_grid := { shape := [5], data := [20, 40, -40, 0, 40] },
               distinct := none } :=
  c3_unstructured_passthrough
    { shape := [5], data := [10, 10, 6, 6, 6] }
    { shape := [5], data := [20, 40, -40, 0, 40] }
    { shape := [5], data := [1, 2, 3, 4, 5] } 5 rfl rfl rfl (by decide)

/-- Claim C4: sel returns a new FieldList containing exactly the fields
whose metadata matches all given key=value filters (exact equality), in
the original relative order; zero matches yield an empty, valid
FieldList with no error. -/
theorem c4_sel_exact_filter (fl : SimpleFieldList) (F : List (String × MetaValue)) :
    (fl.sel F).fields.Sublist fl.fields
    ∧ (∀ f : Field, List.count f (fl.sel F).fields
        = if matchesAll F f then List.count f fl.fields else 0)
    ∧ ((∀ f ∈ fl.fields, matchesAll F f = false) → fl.sel F = { fields := [] }) := by
  refine ⟨List.filter_sublist _, ?_, ?_⟩
  · intro f
    by_cases h : matchesAll F f
    · rw [if_pos h]
      exact List.count_filter h
    · rw [if_neg h]
      rw [List.count_eq_zero]
      intro hmem
      exact h (List.of_mem_filter hmem)
  · intro hall
    have hnil : fl.fields.filter (matchesAll F) = [] := by
      rw [List.filter_eq_nil_iff]
      intro a ha
      simp [hall a ha]
    show ({ fields := fl.fields.filter (matchesAll F) } : SimpleFieldList) = { fields := [] }
    rw [hnil]

/-- Witness for C4 at the six-field notebook list: param="t" keeps the
two t-fields, param="x" yields the empty list. -/
theorem c4_witness :
    (demoList.sel [("param", MetaValue.str "t")]).fields.Sublist demoList.fields
    ∧ (List.count (demoField "t" 500) (demoList.sel [("param", MetaValue.str "t")]).fields
        = if matchesAll [("param", MetaValue.str "t")] (demoField "t" 500)
          then List.count (demoField "t" 500) demoList.fields else 0)
    ∧ demoList.sel [("param", MetaValue.str "x")] = { fields := [] } :=
  ⟨(c4_sel_exact_filter demoList [("param", MetaValue.str "t")]).1,
   (c4_sel_exact_filter demoList [("param", MetaValue.str "t")]).2.1 (demoField "t" 500),
   (c4_sel_exact_filter demoList [("param", MetaValue.str "x")]).2.2 (by decide)⟩

/-- Claim C5: when every field carries metadata key k, order_by(k)
returns a new FieldList sorted ascending by k with a stable sort:
a permutation of the input that is sorted, and on every metadata value
the filtered subsequence keeps the original relative order. -/
theorem c5_order_by_stable_sort (fl : SimpleFieldList) (k : String)
    (hk : ∀ f ∈ fl.fields, (lookupMeta k f.meta).isSome) :
    fl.order_by k = some { fields := List.insertionSort (fieldLE k) fl.fields }
    ∧ (List.insertionSort (fieldLE k) fl.fields).Perm fl.fields
    ∧ (List.insertionSort (fieldLE k) fl.fields).Sorted (fieldLE k)
    ∧ ∀ v : Option MetaValue,
        (List.insertionSort (fieldLE k) fl.fields).filter
            (fun f => decide (lookupMeta k f.meta = v))
          = fl.fields.filter (fun f => decide (lookupMeta k f.meta = v)) := by
  haveI : IsTotal Field (fieldLE k) := ⟨fun f g => metaOptLE_total _ _⟩
  haveI : IsTrans Field (fieldLE k) :=
    ⟨fun f g h hab hbc => metaOptLE_trans _ _ _ hab hbc⟩
  refine ⟨?_, List.perm_insertionSort _ _, List.sorted_insertionSort _ _, ?_⟩
  · unfold SimpleFieldList.order_by
    rw [if_neg]
    rintro ⟨hne, hall⟩
    obtain ⟨f0, hf0⟩ := List.exists_mem_of_ne_nil fl.fields hne
    have h1 := List.all_eq_true.mp hall f0 hf0
    have h2 := hk f0 hf0
    cases hmem : lookupMeta k f0.meta with
    | none => rw [hmem] at h2; simp at h2
    | some x => rw [hmem] at h1; simp at h1
  · intro v
    have hmemv : ∀ x ∈ fl.fields.filter (fun f => decide (lookupMeta k f.meta = v)),
        lookupMeta k x.meta = v := by
      intro x hx
      simpa using List.of_mem_filter hx
    have hpair : (fl.fields.filter (fun f => decide (lookupMeta k f.meta = v))).Pairwise
        (fieldLE k) := by
      apply List.pairwise_of_forall_mem_list
      intro x hx y hy
      unfold fieldLE
      rw [hmemv x hx, hmemv y hy]
      exact metaOptLE_refl v
    have h1 : List.Sublist (fl.fields.filter (fun f => decide (lookupMeta k f.meta = v)))
        (List.insertionSort (fieldLE k) fl.fields) :=
      List.sublist_insertionSort hpair (List.filter_sublist _)
    have h4 : (fl.fields.filter (fun f => decide (lookupMeta k f.meta = v))).filter
          (fun f => decide (lookupMeta k f.meta = v))
        = fl.fields.filter (fun f => decide (lookupMeta k f.meta = v)) := by
      rw [List.filter_eq_self]
      intro a ha
      exact @List.of_mem_filter _ (fun f => decide (lookupMeta k f.meta = v)) a fl.fields ha
    have h2 : List.Sublist (fl.fields.filter (fun f => decide (lookupMeta k f.meta = v)))
        ((List.insertionSort (fieldLE k) fl.fields).filter
          (fun f => decide (lookupMeta k f.meta = v))) := by
      have h3 := h1.filter (fun f => decide (lookupMeta k f.meta = v))
      rwa [h4] at h3
    have h5 : ((List.insertionSort (fieldLE k) fl.fields).filter
          (fun f => decide (lookupMeta k f.meta = v))).Perm
        (fl.fields.filter (fun f => decide (lookupMeta k f.meta = v))) :=
      (List.perm_insertionSort (fieldLE k) fl.fields).filter _
    exact (h2.eq_of_length h5.length_eq.symm).symm

/-- Witness for C5: ordering the six-field notebook list by level. -/
theorem c5_witness :
    demoList.order_by "level"
      = some { fields := List.insertionSort (fieldLE "level") demoList.fields } :=
  (c5_order_by_stable_sort demoList "level" (by decide)).1

/-- Claim C6: stacked to_numpy() has leading axis the field count and
trailing axes the common per-field shape, and it fails
(ShapeMismatchError) exactly when the member shapes are not all
identical. -/
theorem c6_stack_shape (fl : SimpleFieldList) :
    ((fl.to_numpy).isSome ↔ ∀ f ∈ fl.fields, ∀ g ∈ fl.fields, f.geom.shape = g.geom.shape)
    ∧ ∀ f0 rest, fl.fields = f0 :: rest → (fl.to_numpy).isSome →
        (fl.to_numpy).map NDArray.shape = some (fl.fields.length :: f0.geom.shape) := by
  cases hF : fl.fields with
  | nil =>
    have hto : fl.to_numpy = some { shape := [0], data := [] } := by
      unfold SimpleFieldList.to_numpy
      rw [hF]
      rfl
    constructor
    · rw [hto]
      simp
    · intro f0 rest hcons
      exact absurd hcons (by simp)
  | cons f rest =>
    by_cases hall : rest.all (fun g => decide (g.geom.shape = f.geom.shape)) = true
    · have hto : fl.to_numpy
          = some { shape := (f :: rest).length :: f.geom.shape,
                   data := ((f :: rest).map (fun g => g.values.data)).flatten } := by
        unfold SimpleFieldList.to_numpy
        rw [hF]
        simp only [stackFields]
        rw [if_pos hall]
      have key : ∀ x ∈ f :: rest, x.geom.shape = f.geom.shape := by
        intro x hx
        rcases List.mem_cons.mp hx with h | h
        · rw [h]
        · simpa using List.all_eq_true.mp hall x h
      constructor
      · rw [hto]
        constructor
        · intro _ a ha b hb
          rw [key a ha, key b hb]
        · intro _
          rfl
      · intro f0 rest0 hcons _
        injection hcons with h1 h2
        rw [hto, ← h1]
        rfl
    · have hto : fl.to_numpy = none := by
        unfold SimpleFieldList.to_numpy
        rw [hF]
        simp only [stackFields]
        rw [if_neg hall]
      constructor
      · rw [hto]
        constructor
        · intro h
          exact absurd h (by simp)
        · intro hAll
          exfalso
          apply hall
          rw [List.all_eq_true]
          intro x hx
          simpa using hAll x (List.mem_cons_of_mem f hx) f (List.mem_cons_self f rest)
      · intro f0 rest0 hcons hsome
        rw [hto] at hsome
        simp at hsome

/-- Witness for C6: the homogeneous six-field list stacks to shape
6 × (3, 2); the mixed-shape list fails. -/
theorem c6_witness :
    (demoList.to_numpy).map NDArray.shape
        = some (demoList.fields.length :: (demoField "t" 500).geom.shape)
    ∧ demoMixed.to_numpy = none := by
  constructor
  · exact (c6_stack_shape demoList).2 (demoField "t" 500)
      [demoField "t" 850, demoField "u" 500, demoField "u" 850,
       demoField "d" 850, demoField "d" 600] rfl (by decide)
  · by_contra hne
    have hs : (demoMixed.to_numpy).isSome := Option.ne_none_iff_isSome.mp hne
    have h := (c6_stack_shape demoMixed).1.mp hs (demoField "t" 500)
      (by decide) demoUnstructured (by decide)
    exact absurd h (by decide)

/-- Claim C7: grid_points() is the pair of row-major flattenings of the
latitude and longitude grids — flattening to_latlon()'s grids in
row-major order reproduces grid_points(). -/
theorem c7_grid_points_row_major (f : Field)
    (hla : f.geom.latitude_grid.wf) (hlo : f.geom.longitude_grid.wf) :
    (f.to_latlon).lat.flattenRowMajor = (f.grid_points).1
    ∧ (f.to_latlon).lon.flattenRowMajor = (f.grid_points).2 :=
  ⟨flattenRowMajor_eq_data _ hla, flattenRowMajor_eq_data _ hlo⟩

/-- Witness for C7 at the notebooks' mesh field. -/
theorem c7_witness :
    ((demoField "t" 500).to_latlon).lat.flattenRowMajor
        = ((demoField "t" 500).grid_points).1
    ∧ ((demoField "t" 500).to_latlon).lon.flattenRowMajor
        = ((demoField "t" 500).grid_points).2 :=
  c7_grid_points_row_major (demoField "t" 500) (by decide) (by decide)

/-- Claim C8: sel and order_by never mutate the receiver — after the
call the receiver is unchanged (same length, same fields in the same
order), and the returned list shares its Field references with the
parent. -/
theorem c8_sel_order_by_no_mutation (fl : SimpleFieldList)
    (F : List (String × MetaValue)) (k : String) :
    (fl.selCall F).1 = fl
    ∧ (fl.orderByCall k).1 = fl
    ∧ (fl.selCall F).1.fields.length = fl.fields.length
    ∧ (∀ f ∈ (fl.selCall F).2.fields, f ∈ fl.fields)
    ∧ (∀ res, (fl.orderByCall k).2 = some res → ∀ f ∈ res.fields, f ∈ fl.fields) := by
  refine ⟨rfl, rfl, rfl, ?_, ?_⟩
  · intro f hf
    exact List.mem_of_mem_filter hf
  · intro res hres f hf
    have hres2 : fl.order_by k = some res := hres
    unfold SimpleFieldList.order_by at hres2
    by_cases hc : fl.fields ≠ [] ∧ fl.fields.all (fun f => (lookupMeta k f.meta).isNone)
    · rw [if_pos hc] at hres2
      exact absurd hres2 (by simp)
    · rw [if_neg hc] at hres2
      injection hres2 with h
      rw [← h] at hf
      have hmem : f ∈ List.insertionSort (fieldLE k) fl.fields := hf
      rwa [List.mem_insertionSort] at hmem

/-- Witness for C8 at the six-field notebook list. -/
theorem c8_witness :
    (demoList.selCall [("param", MetaValue.str "t")]).1 = demoList
    ∧ (demoList.orderByCall "level").1 = demoList
    ∧ demoField "t" 500 ∈ demoList.fields := by
  refine ⟨(c8_sel_order_by_no_mutation demoList [("param", MetaValue.str "t")] "level").1,
    (c8_sel_order_by_no_mutation demoList [("param", MetaValue.str "t")] "level").2.1,
    (c8_sel_order_by_no_mutation demoList [("param", MetaValue.str "t")] "level").2.2.2.1
      (demoField "t" 500) (by decide)⟩

/-- Claim C9: mars_grid is [longitude_increment, latitude_increment]
for a regular distinct mesh with uniform spacing, and absent (a "not
applicable" result, not an error) for irregular or unstructured
geometries. -/
theorem c9_mars_grid (f : Field) (la lo : List Rat) (dla dlo : Rat) :
    (f.geom.distinct = some (la, lo) → uniformStep la = some dla →
      uniformStep lo = some dlo → f.mars_grid = some [abs dlo, abs dla])
    ∧ (f.geom.distinct = none → f.mars_grid = none)
    ∧ (f.geom.distinct = some (la, lo) → uniformStep la = none →
        f.mars_grid = none) := by
  refine ⟨?_, ?_, ?_⟩
  · intro hd hla hlo
    unfold Field.mars_grid
    rw [hd]
    show marsIncrements la lo = _
    unfold marsIncrements
    rw [hla, hlo]
  · intro hd
    unfold Field.mars_grid
    rw [hd]
  · intro hd hla
    unfold Field.mars_grid
    rw [hd]
    show marsIncrements la lo = _
    unfold marsIncrements
    rw [hla]

/-- Witness for C9: the notebooks' distinct mesh has
mars_grid = [20, 10]; the unstructured field has none. -/
theorem c9_witness :
    (demoField "t" 500).mars_grid = some [abs (20 : Rat), abs (-10 : Rat)]
    ∧ demoUnstructured.mars_grid = none := by
  refine ⟨(c9_mars_grid (demoField "t" 500) [10, 0, -10] [20, 40] (-10) 20).1
      rfl (by norm_num [uniformStep, stepsOkFrom]) (by norm_num [uniformStep, stepsOkFrom]),
    (c9_mars_grid demoUnstructured [] [] 0 0).2.1 rfl⟩

/-- Claim C10: a valid_datetime metadata string in ISO-8601 form with a
trailing Z parses to a timezone-aware UTC value denoting the same
instant (offset normalized to +00:00), and ls() renders it with the
explicit +00:00 designator rather than the Z form. -/
theorem c10_valid_datetime_utc (f : Field) (cs : List Char) (c : NaiveDT)
    (hmeta : lookupMeta "valid_datetime" f.meta
        = some (MetaValue.str (String.mk (cs ++ ['Z']))))
    (hparse : parseNaiveDT cs = some c) :
    f.valid_datetime = some { naive := c, offsetMinutes := some 0 }
    ∧ lsValidDatetime f
        = some (fmtNaiveDT c ++ ['+', '0', '0', ':', '0', '0']) := by
  have hvd : f.valid_datetime = some { naive := c, offsetMinutes := some 0 } := by
    unfold Field.valid_datetime
    rw [hmeta]
    show parseValidDatetime (cs ++ ['Z']) = _
    unfold parseValidDatetime
    rw [if_pos (by rw [List.getLast?_concat]), List.dropLast_concat, hparse]
    rfl
  refine ⟨hvd, ?_⟩
  unfold lsValidDatetime
  rw [hvd]
  rfl

/-- Witness for C10 at the notebooks' "2018-08-01T09:00:00Z". -/
theorem c10_witness :
    (demoField "t" 500).valid_datetime
        = some { naive := { year := 2018, month := 8, day := 1,
                            hour := 9, minute := 0, second := 0 },
                 offsetMinutes := some 0 }
    ∧ lsValidDatetime (demoField "t" 500)
        = some (fmtNaiveDT { year := 2018, month := 8, day := 1,
                             hour := 9, minute := 0, second := 0 }
            ++ ['+', '0', '0', ':', '0', '0']) :=
  c10_valid_datetime_utc (demoField "t" 500) ("2018-08-01T09:00:00".data)
    { year := 2018, month := 8, day := 1, hour := 9, minute := 0, second := 0 }
    (by decide) (by decide)

end Earthkit
